import Mathlib

/-!
Verification of the talk2yt backend core against its natural-language
specification.

The repository contains three near-duplicate Flask services
(`TalkToYT-backend/app.py`, `api/wsgi_app.py`, `backend/wsgi_app.py`).
This file gives a shallow embedding of the pure core of those services:

* the transcript windowing function `get_transcript_chunks`
  (identical loop in all three variants);
* the response cleaning helper `clean_ai_response`
  (api and backend variants);
* the video-id extractor `extract_youtube_video_id`
  (full URL-parsing variant from `api/wsgi_app.py`, and the
  regex-only variant from `TalkToYT-backend/app.py` / `backend/wsgi_app.py`,
  modelled as `talk_extract_youtube_video_id`);
* the timestamp formatter `format_timestamp` (api variant;
  Python floats are modelled as exact rationals `ℚ`);
* the per-request orchestration of the chat, summarize and
  extract-topics endpoints, with the external Gemini generation
  service abstracted as an explicit function argument `gen`.

Strings are modelled as `List Char`; concrete Python strings appear
as `"...".data`.  The generation service result is an argument so that
orchestration claims quantify over all possible model outputs.
-/

/-- Characters stripped by Python `str.strip()` (the ASCII whitespace
class; the rare non-ASCII whitespace Python also strips never occurs in
the strings this development manipulates). -/
def isPySpace (c : Char) : Bool :=
  c = ' ' || c = '\t' || c = '\n' || c = '\r' || c = '\x0b' || c = '\x0c'

/-- Python `str.strip()`: drop whitespace from both ends. -/
def pyStrip (l : List Char) : List Char :=
  ((l.dropWhile isPySpace).reverse.dropWhile isPySpace).reverse

/-- Python `str.lower()` restricted to ASCII (all strings compared in the
source are ASCII). -/
def lowerStr (l : List Char) : List Char := l.map Char.toLower

/-- Python `sep.join(xs)`. -/
def joinSep (sep : List Char) : List (List Char) → List Char
  | [] => []
  | [x] => x
  | x :: y :: rest => x ++ sep ++ joinSep sep (y :: rest)

/-- Python `s * n` for strings: `n` copies of `l` concatenated. -/
def repeatList : Nat → List Char → List Char
  | 0, _ => []
  | n + 1, l => l ++ repeatList n l

/-- Python `needle in hay` (substring containment). -/
def isSubstring (needle : List Char) : List Char → Bool
  | [] => needle.isEmpty
  | c :: rest => needle.isPrefixOf (c :: rest) || isSubstring needle rest

lemma length_repeatList (n : Nat) (l : List Char) :
    (repeatList n l).length = n * l.length := by
  induction n with
  | zero => simp [repeatList]
  | succ m ih => simp [repeatList, ih, Nat.succ_mul]; omega

lemma dropWhile_eq_self_of_all (p : Char → Bool) (l : List Char)
    (h : ∀ c ∈ l, p c = false) : l.dropWhile p = l := by
  cases l with
  | nil => rfl
  | cons a t => simp [List.dropWhile_cons, h a (List.mem_cons_self a t)]

lemma pyStrip_eq_self_of_all (l : List Char)
    (h : ∀ c ∈ l, isPySpace c = false) : pyStrip l = l := by
  unfold pyStrip
  rw [dropWhile_eq_self_of_all _ _ h,
    dropWhile_eq_self_of_all _ _ (by simpa using h), List.reverse_reverse]

lemma head_dropWhile_false (p : Char → Bool) :
    ∀ (l : List Char) (a : Char) (t : List Char),
      l.dropWhile p = a :: t → p a = false := by
  intro l
  induction l with
  | nil => intro a t h; simp at h
  | cons b bs ih =>
      intro a t h
      rw [List.dropWhile_cons] at h
      by_cases hb : p b
      · simp [hb] at h; exact ih a t h
      · simp [hb] at h
        rcases h with ⟨h1, _⟩
        simpa [h1] using hb

lemma getLast?_dropWhile (p : Char → Bool) :
    ∀ l : List Char, l.dropWhile p ≠ [] → (l.dropWhile p).getLast? = l.getLast? := by
  intro l
  induction l with
  | nil => intro h; simp at h
  | cons b bs ih =>
      intro h
      rw [List.dropWhile_cons]
      by_cases hb : p b
      · rw [List.dropWhile_cons, if_pos hb] at h
        rw [if_pos hb, ih h]
        cases bs with
        | nil => simp [List.dropWhile] at h
        | cons c cs => simp [List.getLast?_cons_cons]
      · rw [if_neg hb]

lemma pyStrip_dropWhile (l : List Char) :
    (pyStrip l).dropWhile isPySpace = pyStrip l := by
  have hmain : ∀ A : List Char, A.dropWhile isPySpace = A →
      ((A.reverse.dropWhile isPySpace).reverse).dropWhile isPySpace
        = (A.reverse.dropWhile isPySpace).reverse := by
    intro A hA
    rcases h : (A.reverse.dropWhile isPySpace).reverse with _ | ⟨a, rest⟩
    · rfl
    · have hBne : A.reverse.dropWhile isPySpace ≠ [] := by
        intro hB
        rw [hB] at h
        simp at h
      have h1 : (A.reverse.dropWhile isPySpace).getLast? = A.head? := by
        rw [getLast?_dropWhile isPySpace A.reverse hBne, List.getLast?_reverse]
      have hhead : A.head? = some a := by
        rw [← h1, ← List.head?_reverse, h, List.head?_cons]
      rcases hAe : A with _ | ⟨a0, as⟩
      · rw [hAe] at hhead; simp at hhead
      · rw [hAe] at hhead
        simp only [List.head?_cons, Option.some.injEq] at hhead
        have hpa : isPySpace a = false := by
          rw [← hhead]
          exact head_dropWhile_false isPySpace A a0 as (by rw [hA, hAe])
        rw [List.dropWhile_cons, hpa]
        simp
  have hA : (l.dropWhile isPySpace).dropWhile isPySpace = l.dropWhile isPySpace :=
    List.dropWhile_idempotent _ _
  exact hmain _ hA

lemma pyStrip_idem (l : List Char) : pyStrip (pyStrip l) = pyStrip l := by
  show (((pyStrip l).dropWhile isPySpace).reverse.dropWhile isPySpace).reverse
      = pyStrip l
  rw [pyStrip_dropWhile]
  have hrev : (pyStrip l).reverse.dropWhile isPySpace = (pyStrip l).reverse := by
    have hunfold : (pyStrip l).reverse
        = (l.dropWhile isPySpace).reverse.dropWhile isPySpace := by
      show (((l.dropWhile isPySpace).reverse.dropWhile
        isPySpace).reverse).reverse = _
      rw [List.reverse_reverse]
    rw [hunfold]
    exact List.dropWhile_idempotent _ _
  rw [hrev, List.reverse_reverse]

/-! ## Transcript windowing

`get_transcript_chunks` (identical in all three variants, e.g.
`backend/wsgi_app.py` lines 82-95):

```python
if not transcript_text:
    return []
chunks = []
current_pos = 0
while current_pos < len(transcript_text):
    end_pos = min(current_pos + max_chars, len(transcript_text))
    chunks.append(transcript_text[current_pos:end_pos])
    current_pos += max_chars - overlap_chars
    if current_pos >= len(transcript_text):
        break
return chunks
```

The trailing `if ... break` restates the `while` guard, so the loop is
exactly: while `pos < len(text)`, emit `text[pos : pos+max_chars]` and
advance by `max_chars - overlap_chars`.  The loop is embedded with a fuel
parameter; `text.length + 1` units of fuel are sufficient whenever
`overlap_chars < max_chars` (each iteration advances by at least one), the
only regime in which the Python loop terminates. -/
def chunksGoF (text : List Char) (M O : Nat) : Nat → Nat → List (List Char)
  | 0, _ => []
  | fuel + 1, pos =>
      if pos < text.length then
        ((text.drop pos).take M) :: chunksGoF text M O fuel (pos + (M - O))
      else []

/-- `get_transcript_chunks(transcript_text, max_chars, overlap_chars)`. -/
def get_transcript_chunks (transcript_text : List Char)
    (max_chars overlap_chars : Nat) : List (List Char) :=
  if transcript_text.isEmpty then []
  else chunksGoF transcript_text max_chars overlap_chars
    (transcript_text.length + 1) 0

lemma chunksGoF_length (text : List Char) (M O : Nat) (hOM : O < M) :
    ∀ fuel pos, text.length - pos < fuel →
      (chunksGoF text M O fuel pos).length =
        if pos < text.length then (text.length - pos - 1) / (M - O) + 1 else 0 := by
  intro fuel
  induction fuel with
  | zero => intro pos h; omega
  | succ f ih =>
      intro pos h
      by_cases hpos : pos < text.length
      · rw [chunksGoF, if_pos hpos, List.length_cons,
          ih (pos + (M - O)) (by omega), if_pos hpos]
        by_cases hp2 : pos + (M - O) < text.length
        · rw [if_pos hp2]
          have hs : 0 < M - O := by omega
          have hle : M - O ≤ text.length - pos - 1 := by omega
          rw [Nat.div_eq_sub_div hs hle]
          have heq : text.length - pos - 1 - (M - O)
              = text.length - (pos + (M - O)) - 1 := by omega
          rw [heq]
        · rw [if_neg hp2]
          have : text.length - pos - 1 < M - O := by omega
          rw [Nat.div_eq_of_lt this]
      · rw [chunksGoF, if_neg hpos, if_neg hpos, List.length_nil]

lemma chunksGoF_getD (text : List Char) (M O : Nat) (hOM : O < M) :
    ∀ fuel i pos, text.length - pos < fuel → pos + i * (M - O) < text.length →
      (chunksGoF text M O fuel pos).getD i []
        = (text.drop (pos + i * (M - O))).take M := by
  intro fuel
  induction fuel with
  | zero => intro i pos h; omega
  | succ f ih =>
      intro i pos h hi
      have hpos : pos < text.length :=
        Nat.lt_of_le_of_lt (Nat.le_add_right pos _) hi
      cases i with
      | zero =>
          rw [chunksGoF, if_pos hpos]
          simp
      | succ j =>
          rw [chunksGoF, if_pos hpos, List.getD_cons_succ]
          have harith : pos + (M - O) + j * (M - O) = pos + (j + 1) * (M - O) := by
            ring
          rw [ih j (pos + (M - O)) (by omega) (by rw [harith]; exact hi), harith]

lemma gtc_length (text : List Char) (M O : Nat) (hOM : O < M) :
    (get_transcript_chunks text M O).length =
      if text.length = 0 then 0 else (text.length - 1) / (M - O) + 1 := by
  unfold get_transcript_chunks
  by_cases he : text.isEmpty
  · rw [if_pos he]
    rw [List.isEmpty_iff] at he
    simp [he]
  · rw [if_neg he]
    have hne : text ≠ [] := by rwa [List.isEmpty_iff] at he
    have hlen : 0 < text.length := List.length_pos.mpr hne
    rw [chunksGoF_length text M O hOM _ 0 (by omega), if_pos hlen,
      if_neg (by omega)]
    simp

lemma gtc_getD (text : List Char) (M O : Nat) (hOM : O < M) (i : Nat)
    (hi : i * (M - O) < text.length) :
    (get_transcript_chunks text M O).getD i [] = (text.drop (i * (M - O))).take M := by
  unfold get_transcript_chunks
  have hlen : 0 < text.length := Nat.lt_of_le_of_lt (Nat.zero_le _) hi
  have hne : ¬ text.isEmpty := by
    rw [List.isEmpty_iff]
    exact List.ne_nil_of_length_pos hlen
  rw [if_neg hne]
  have := chunksGoF_getD text M O hOM (text.length + 1) i 0 (by omega)
    (by simpa using hi)
  simpa using this

lemma gtc_index_iff (text : List Char) (M O : Nat) (hOM : O < M) (i : Nat) :
    i < (get_transcript_chunks text M O).length ↔ i * (M - O) < text.length := by
  rw [gtc_length text M O hOM]
  by_cases h0 : text.length = 0
  · simp [h0]
  · rw [if_neg h0]
    have hs : 0 < M - O := by omega
    rw [Nat.lt_succ_iff, Nat.le_div_iff_mul_le hs]
    generalize i * (M - O) = X
    omega

/-! ## Response cleaning

`clean_ai_response` (api and backend variants):

```python
if not isinstance(text, str):
    return ""
text = text.replace('**', '')
return text.strip()
```
-/

/-- Python `text.replace('**', '')`: remove each non-overlapping
occurrence of two consecutive asterisks, scanning left to right. -/
def replaceStars : List Char → List Char
  | [] => []
  | [c] => [c]
  | c1 :: c2 :: rest =>
      if c1 = '*' && c2 = '*' then replaceStars rest
      else c1 :: replaceStars (c2 :: rest)

/-- `clean_ai_response(text)` on string input (non-string input yields
the empty string in Python and is outside the model). -/
def clean_ai_response (text : List Char) : List Char :=
  pyStrip (replaceStars text)

/-! ## Video-id extraction

Characters allowed in a YouTube video id (`[a-zA-Z0-9_-]`). -/
def isIdChar (c : Char) : Bool :=
  c.isAlpha || c.isDigit || c = '_' || c = '-'

/-- Python `re.fullmatch(r'[a-zA-Z0-9_-]{11}', s)`. -/
def fullmatchId (s : List Char) : Bool :=
  s.length = 11 && s.all isIdChar

/-- One alternative of the fallback regex at a fixed position: if `alt`
is a literal prefix of `l` and the following 11 characters are id
characters, capture them. -/
def tryAlt (alt : List Char) (l : List Char) : Option (List Char) :=
  if alt.isPrefixOf l then
    if fullmatchId ((l.drop alt.length).take 11) then
      some ((l.drop alt.length).take 11)
    else none
  else none

/-- Ordered alternation: the first alternative that matched wins. -/
def orElseO (a b : Option (List Char)) : Option (List Char) :=
  match a with
  | some v => some v
  | none => b

/-- Alternatives of the first fallback regex of `api/wsgi_app.py`
(line 87), tried in order at one position:
`(?:v=|/videos/|embed\/|youtu\.be\/|\/v\/|\/e\/|watch\?v=|v=)([a-zA-Z0-9_-]{11})`. -/
def apiMarkerAt (l : List Char) : Option (List Char) :=
  orElseO (tryAlt "v=".data l) (orElseO (tryAlt "/videos/".data l)
    (orElseO (tryAlt "embed/".data l) (orElseO (tryAlt "youtu.be/".data l)
      (orElseO (tryAlt "/v/".data l) (orElseO (tryAlt "/e/".data l)
        (orElseO (tryAlt "watch?v=".data l) (tryAlt "v=".data l)))))))

/-- `re.search` scanning for the api fallback regex: leftmost position
whose alternative (in order) matches wins. -/
def apiSearchMarkers : List Char → Option (List Char)
  | [] => none
  | c :: rest =>
      match apiMarkerAt (c :: rest) with
      | some v => some v
      | none => apiSearchMarkers rest

/-- Python `re.search(r"([a-zA-Z0-9_-]{11})$", s)`: the last 11
characters (`$` also matches just before one trailing newline). -/
def trailing11 (l : List Char) : Option (List Char) :=
  let core := if l.getLast? = some '\n' then l.dropLast else l
  if core.length < 11 then none
  else
    let t := core.drop (core.length - 11)
    if t.all isIdChar then some t else none

/-- The regex fallback of `api/wsgi_app.py` lines 85-93 (applied to the
original, unstripped `url`). -/
def apiRegexFallback (url : List Char) : Option (List Char) :=
  match apiSearchMarkers url with
  | some v => some v
  | none => trailing11 url

/-- Python `re.match(r'^https?://', s, re.IGNORECASE)`. -/
def hasScheme (s : List Char) : Bool :=
  "http://".data.isPrefixOf (lowerStr s) || "https://".data.isPrefixOf (lowerStr s)

/-- The components of `urllib.parse.urlparse` used by the extractor. -/
structure UrlParts where
  host : List Char
  path : List Char
  query : List Char
deriving DecidableEq

/-- Python `str.split(sep)` for a single-character separator. -/
def splitOnChar (sep : Char) : List Char → List (List Char)
  | [] => [[]]
  | c :: rest =>
      let r := splitOnChar sep rest
      if c = sep then [] :: r else (c :: r.headD []) :: r.tail

/-- `urlparse` on a string known to start with `http://` or `https://`;
`none` models the `ValueError` Python raises on a bracketed (IPv6-style)
authority, which the extractor catches.  Percent-decoding is not modelled
(no input the extractor validates can contain `%`-escapes and still pass
the id pattern). -/
def parseUrl (s : List Char) : Option UrlParts :=
  let afterScheme :=
    if "https://".data.isPrefixOf (lowerStr s) then s.drop 8
    else if "http://".data.isPrefixOf (lowerStr s) then s.drop 7
    else s
  let netloc := afterScheme.takeWhile fun c => !(c = '/' || c = '?' || c = '#')
  let rest := afterScheme.drop netloc.length
  let path := rest.takeWhile fun c => !(c = '?' || c = '#')
  let afterPath := rest.drop path.length
  let query :=
    match afterPath with
    | '?' :: t => t.takeWhile (· ≠ '#')
    | _ => []
  if netloc.contains '[' || netloc.contains ']' then none
  else
    let afterAt := (netloc.reverse.takeWhile (· ≠ '@')).reverse
    let host := lowerStr (afterAt.takeWhile (· ≠ ':'))
    some ⟨host, path, query⟩

/-- Python `host.replace('www.', '')` (all occurrences, left to right). -/
def removeWWW : List Char → List Char
  | 'w' :: 'w' :: 'w' :: '.' :: rest => removeWWW rest
  | c :: rest => c :: removeWWW rest
  | [] => []

/-- `parse_qs(u.query)` followed by `(q.get('v') or [None])[0]`:
first `v=value` pair with a non-empty value (`parse_qs` drops blank
values). -/
def getQueryV (query : List Char) : Option (List Char) :=
  go (splitOnChar '&' query)
where
  go : List (List Char) → Option (List Char)
    | [] => none
    | piece :: rest =>
        match piece with
        | 'v' :: '=' :: val => if val.isEmpty then go rest else some val
        | _ => go rest

/-- The host-dispatch of `extract_youtube_video_id` in `api/wsgi_app.py`
lines 66-79 (before the final pattern validation). -/
def urlBranch (u : UrlParts) : Option (List Char) :=
  let host := removeWWW u.host
  if host = "youtube.com".data || host = "m.youtube.com".data
      || host = "music.youtube.com".data then
    let v1 := if u.path = "/watch".data then getQueryV u.query else none
    match v1 with
    | some v => some v
    | none =>
        if "/embed/".data.isPrefixOf u.path then
          some ((u.path.drop 7).takeWhile (· ≠ '/'))
        else if "/v/".data.isPrefixOf u.path then
          some ((u.path.drop 3).takeWhile (· ≠ '/'))
        else if "/shorts/".data.isPrefixOf u.path then
          some ((u.path.drop 8).takeWhile (· ≠ '/'))
        else none
  else if host = "youtu.be".data then
    some ((u.path.dropWhile (· = '/')).takeWhile (· ≠ '/'))
  else none

/-- `extract_youtube_video_id(url)` from `api/wsgi_app.py` lines 52-94:
bare-id fast path, URL parsing with host dispatch and pattern
validation, then the regex fallback on the original string.  Returning
`Option` models the `try/except` around the URL branch together with the
final `return None`. -/
def extract_youtube_video_id (url : List Char) : Option (List Char) :=
  let s := pyStrip url
  if fullmatchId s then some s
  else
    let s2 := if hasScheme s then s else "https://".data ++ s
    let fromUrl : Option (List Char) :=
      match parseUrl s2 with
      | none => none
      | some u =>
          match urlBranch u with
          | some v => if fullmatchId v then some v else none
          | none => none
    match fromUrl with
    | some v => some v
    | none => apiRegexFallback url

/-- One position of the first regex of `TalkToYT-backend/app.py` line 64 /
`backend/wsgi_app.py` line 57, whose `youtu.be` alternative has an
unescaped dot (matching any character):
`(?:v=|/videos/|embed\/|youtu.be\/|\/v\/|\/e\/|watch\?v=|v=)([a-zA-Z0-9_-]{11})`. -/
def tryAltYoutuAnyBe (l : List Char) : Option (List Char) :=
  match l with
  | 'y' :: 'o' :: 'u' :: 't' :: 'u' :: _ :: 'b' :: 'e' :: '/' :: rest =>
      if fullmatchId (rest.take 11) then some (rest.take 11) else none
  | _ => none

/-- Alternatives of the TalkToYT/backend regex, in order, at one position. -/
def talkMarkerAt (l : List Char) : Option (List Char) :=
  orElseO (tryAlt "v=".data l) (orElseO (tryAlt "/videos/".data l)
    (orElseO (tryAlt "embed/".data l) (orElseO (tryAltYoutuAnyBe l)
      (orElseO (tryAlt "/v/".data l) (orElseO (tryAlt "/e/".data l)
        (orElseO (tryAlt "watch?v=".data l) (tryAlt "v=".data l)))))))

/-- `re.search` scanning for the TalkToYT/backend first regex. -/
def talkSearchMarkers : List Char → Option (List Char)
  | [] => none
  | c :: rest =>
      match talkMarkerAt (c :: rest) with
      | some v => some v
      | none => talkSearchMarkers rest

/-- `extract_youtube_video_id(url)` from `TalkToYT-backend/app.py`
lines 56-71 and `backend/wsgi_app.py` lines 53-64: try the two regexes
in order, return the first capture, else `None`. -/
def talk_extract_youtube_video_id (url : List Char) : Option (List Char) :=
  match talkSearchMarkers url with
  | some v => some v
  | none => trailing11 url

/-! ## Timestamp rendering

`format_timestamp(seconds)` from `api/wsgi_app.py` lines 97-106.  Python
floats are modelled as exact rationals; `float(seconds)` failing (invalid
input) is modelled by the `none` case of the `Option` argument.

```python
try: seconds = float(seconds)
except Exception: seconds = 0.0
hours = int(seconds // 3600)
minutes = int((seconds % 3600) // 60)
secs = int(seconds % 60)
return f"[{HH:02}:{MM:02}:{SS:02}]"   # zero-padded fields
```

Python `//` is floor division and `%` the matching remainder; `int()` of
these (non-negative remainders, integral quotients) is the floor. -/

/-- Python `x % m` on numbers: `x - m * (x // m)`. -/
def pyMod (x m : ℚ) : ℚ := x - m * ⌊x / m⌋

/-- Decimal digit character. -/
def digitChar (n : Nat) : Char := Char.ofNat (48 + n)

/-- Decimal digits of a natural number, most significant first (fuel
`n+1` always suffices since `n/10 < n` for `n ≥ 10`). -/
def natDigitsAux : Nat → Nat → List Char
  | 0, _ => []
  | fuel + 1, n =>
      if n < 10 then [digitChar n]
      else natDigitsAux fuel (n / 10) ++ [digitChar (n % 10)]

def natDigits (n : Nat) : List Char := natDigitsAux (n + 1) n

/-- Python `f"{i:02}"`: decimal rendering zero-padded to a minimum width
of two (sign-aware, like Python's `0`-flag). -/
def pad02 (i : ℤ) : List Char :=
  if i < 0 then '-' :: natDigits i.natAbs
  else if i < 10 then '0' :: natDigits i.toNat
  else natDigits i.toNat

/-- `format_timestamp(seconds)`; `none` is any input `float()` rejects. -/
def format_timestamp (input : Option ℚ) : List Char :=
  let s := input.getD 0
  let hours : ℤ := ⌊s / 3600⌋
  let minutes : ℤ := ⌊pyMod s 3600 / 60⌋
  let secs : ℤ := ⌊pyMod s 60⌋
  '[' :: (pad02 hours ++ ':' :: (pad02 minutes ++ ':' :: (pad02 secs ++ [']'])))

/-! ## Chat orchestration

The three chat variants, with the generation service abstracted: a
per-window result is `none` when the response had no candidates/parts
(blocked) and `some t` when `part_text = t`. -/

/-- The default / fallback answer of `TalkToYT-backend/app.py` line 215. -/
def talkChatFallback : List Char :=
  "The information is not available in the video\x27s transcript.".data

/-- A per-chunk generation result the TalkToYT chat loops past: blocked,
empty, or containing a disqualifying phrase (case-insensitive), from
`TalkToYT-backend/app.py` lines 226-238. -/
def disqualifiedTalk (r : Option (List Char)) : Bool :=
  match r with
  | none => true
  | some t =>
      t.isEmpty || isSubstring "not available".data (lowerStr t)
        || isSubstring "cannot process".data (lowerStr t)

/-- The chunk loop of `chat_with_video` in `TalkToYT-backend/app.py`
lines 215-242: take the first acceptable per-chunk result, else keep the
default fallback.  `results` is the ordered list of generation results,
one per attempted chunk. -/
def talk_chat_with_video (results : List (Option (List Char))) : List Char :=
  match results with
  | [] => talkChatFallback
  | r :: rest =>
      if disqualifiedTalk r then talk_chat_with_video rest
      else r.getD []

/-- The apology fallback shared by `backend/wsgi_app.py` line 175 and
`api/wsgi_app.py` line 270. -/
def apologyFallback : List Char :=
  "I\x27m sorry, I couldn\x27t find an answer to that in the video content.".data

/-- The response computation of `chat_with_video` in
`backend/wsgi_app.py` lines 175-188: single generation call on the full
transcript; a blocked result keeps the default apology, a present result
is cleaned and returned as-is. -/
def backend_chat_with_video (genResult : Option (List Char)) : List Char :=
  match genResult with
  | none => apologyFallback
  | some t => clean_ai_response t

/-- The response computation of `chat_with_video` in `api/wsgi_app.py`
lines 269-272: `clean_ai_response(call_gemini(prompt)) or apology`
(`call_gemini` returns the raw text, or an empty string on any failure). -/
def api_chat_with_video (ai_raw : List Char) : List Char :=
  let c := clean_ai_response ai_raw
  if c.isEmpty then apologyFallback else c

/-! ## Summarize orchestration -/

/-- Per-chunk summary prompt of `backend/wsgi_app.py` lines 219-223 /
`api/wsgi_app.py` lines 300-304. -/
def backend_chunk_prompt (chunk : List Char) : List Char :=
  ("Provide a detailed summary of the following video content segment. "
    ++ "Focus on the key points, arguments, and conclusions presented.\n\n---\n").data
    ++ chunk ++ "\n---".data

/-- Synthesis ("meta-summary") prompt of `backend/wsgi_app.py`
lines 234-245. -/
def backend_final_prompt (combined : List Char) : List Char :=
  ("You are Sanchar, a helpful AI video assistant. "
    ++ "You will be given several summaries from different parts of a single video. "
    ++ "Your task is to synthesize them into one final, coherent response. "
    ++ "The response must be well-structured, easy to read, and must not mention "
    ++ "that it\x27s from a transcript.\n\n"
    ++ "Format the output with two distinct sections:\n"
    ++ "1. A \x27Summary\x27 section: A concise, flowing paragraph that captures "
    ++ "the main ideas of the entire video.\n"
    ++ "2. A \x27Key Takeaways\x27 section: A bulleted list of the most important "
    ++ "points or actionable items mentioned.\n\n"
    ++ "--- Individual Summaries ---\n").data
    ++ combined ++ "\n\n--- Final Synthesized Response ---".data

/-- Fallback summary text of `backend/wsgi_app.py` line 257. -/
def noSummaryMsg : List Char := "I could not generate a summary for this video.".data

/-- The two-step summary pipeline of `summarize_video` in
`backend/wsgi_app.py` lines 214-260 (the api variant is the same
orchestration): one generation call per chunk keeping non-empty results
in order; a single synthesis call iff more than one summary resulted;
clean the final text, substituting a fixed message when cleaning yields
nothing.  `gen` is the generation service (empty string = no usable
output).  Returns the response body together with the ordered list of
prompts sent to the generation service. -/
def backend_summarize_core (gen : List Char → List Char)
    (chunks : List (List Char)) : List Char × List (List Char) :=
  let summaries := (chunks.map fun c => gen (backend_chunk_prompt c)).filter
    fun s => !s.isEmpty
  let synth : Option (List Char) :=
    if 1 < summaries.length then
      some (backend_final_prompt (joinSep "\n\n---\n\n".data summaries))
    else none
  let finalText :=
    match synth with
    | some p => gen p
    | none => summaries.headD []
  let cleaned := clean_ai_response finalText
  (if cleaned.isEmpty then noSummaryMsg else cleaned,
    chunks.map backend_chunk_prompt
      ++ (match synth with | some p => [p] | none => []))

/-- The `summarize_video` endpoint of `backend/wsgi_app.py`
lines 195-260 as (HTTP status, body): the missing/empty-field check,
the windowing with the variant's constants (`MAX_TRANSCRIPT_LENGTH_CHARS
= 12000`, `OVERLAP_CHARS = 500`), the zero-window branch, then the core
pipeline. -/
def backend_summarize_video (gen : List Char → List Char)
    (video_transcript : List Char) : Nat × List Char :=
  if video_transcript.isEmpty then (400, "Video transcript is required".data)
  else
    let chunks := get_transcript_chunks video_transcript 12000 500
    if chunks.isEmpty then (200, "There is no content to summarize.".data)
    else (200, (backend_summarize_core gen chunks).1)

/-- Per-chunk summary prompt of `TalkToYT-backend/app.py` lines 279-281. -/
def talk_chunk_prompt (chunk : List Char) : List Char :=
  ("Please provide a concise summary of the following video transcript chunk. "
    ++ "Focus on key points and takeaways.\n\n---\n").data ++ chunk ++ "\n---".data

/-- The summary combination of `summarize_video` in
`TalkToYT-backend/app.py` lines 275-299: one generation call per chunk
(a blocked call contributes nothing, a present result is kept even when
empty), then the per-chunk summaries are joined with spaces and
stripped; no synthesis call is made.  Returns the response body together
with the ordered list of prompts sent. -/
def talk_summarize_core (gen : List Char → Option (List Char))
    (chunks : List (List Char)) : List Char × List (List Char) :=
  let summaries := chunks.filterMap fun c => gen (talk_chunk_prompt c)
  let final := pyStrip (joinSep " ".data summaries)
  (if final.isEmpty then
      "Could not generate a comprehensive summary based on the provided transcript.".data
    else final,
    chunks.map talk_chunk_prompt)

/-- The scenario transcript of the specification: `"Hello world. " * 1000`. -/
def scenarioTranscript : List Char := repeatList 1000 "Hello world. ".data

/-! ## Topic parsing -/

/-- Character class `\s` of Python's `re` module (ASCII range). -/
def isReSpace (c : Char) : Bool :=
  c = ' ' || c = '\t' || c = '\n' || c = '\r' || c = '\x0b' || c = '\x0c'

/-- One attempt of `re.sub(r'^\s*[-*]\s*|\d+\.\s*', ..., flags=re.MULTILINE)`
at a fixed position: returns the number of characters the match consumes
and whether the position after the match is a line start (last consumed
character is a newline).  The first alternative is anchored to a line
start; the second matches anywhere. -/
def markerMatch (atLineStart : Bool) (l : List Char) : Option (Nat × Bool) :=
  let alt1 : Option (Nat × Bool) :=
    if atLineStart then
      let ws := l.takeWhile isReSpace
      match l.drop ws.length with
      | c :: rest2 =>
          if c = '-' || c = '*' then
            let ws2 := rest2.takeWhile isReSpace
            some (ws.length + 1 + ws2.length, ws2.getLast? == some '\n')
          else none
      | [] => none
    else none
  match alt1 with
  | some r => some r
  | none =>
      let ds := l.takeWhile Char.isDigit
      if ds.isEmpty then none
      else
        match l.drop ds.length with
        | '.' :: rest2 =>
            let ws2 := rest2.takeWhile isReSpace
            some (ds.length + 1 + ws2.length, ws2.getLast? == some '\n')
        | _ => none

/-- `re.sub(r'^\s*[-*]\s*|\d+\.\s*', '', raw, flags=re.MULTILINE)`:
scan left to right, removing each leftmost match; both alternatives
consume at least one character, so fuel `length + 1` suffices. -/
def subMarkersAux : Nat → Bool → List Char → List Char
  | 0, _, l => l
  | fuel + 1, atStart, l =>
      match l with
      | [] => []
      | c :: rest =>
          match markerMatch atStart (c :: rest) with
          | some (n, nl) => subMarkersAux fuel nl ((c :: rest).drop n)
          | none => c :: subMarkersAux fuel (c == '\n') rest

def subMarkers (l : List Char) : List Char := subMarkersAux (l.length + 1) true l

/-- Topic-list parsing of `extract_topics` in `TalkToYT-backend/app.py`
lines 343-347: when the raw model output is non-empty, strip list
markers, split on commas, trim every piece and drop empty pieces. -/
def talk_extract_topics (topics_raw : List Char) : List (List Char) :=
  if topics_raw.isEmpty then []
  else
    ((subMarkers topics_raw).splitOn ',').filterMap fun t =>
      if (pyStrip t).isEmpty then none else some (pyStrip t)

/-- Topic-list parsing of `extract_topics` in `api/wsgi_app.py`
lines 354-357 (the backend variant is the same): clean the raw output
(markdown-bold removal and trim only), split on commas, trim pieces and
drop empty ones.  No list-marker stripping is performed. -/
def api_extract_topics (resp : List Char) : List (List Char) :=
  ((clean_ai_response resp).splitOn ',').filterMap fun t =>
    if (pyStrip t).isEmpty then none else some (pyStrip t)

/-! ## Claim theorems -/

/-- C1 (counterexample).  The claimed window count `ceil((L-O)/(M-O))`
fails on the code: for the 10-character text below with `maxLength = 5`
and `overlap = 2` the loop emits 4 windows (positions 0, 3, 6, 9) while
the formula gives `ceil(8/3) = 3`. -/
theorem windowing_count_formula_counterexample :
    ¬ ((get_transcript_chunks "abcdefghij".data 5 2).length
        = ("abcdefghij".data.length - 2 + (5 - 2) - 1) / (5 - 2)) := by
  decide

/-- C1 (amended).  For `overlap < maxLength`: an empty text yields no
windows; a non-empty text of length `L` yields exactly
`ceil(L/(M-O)) = (L-1)/(M-O) + 1` windows; the windows cover `[0, L)`
with no gaps; the last `M-O` characters of window `i` are exactly the
first `O` characters of window `i+1`; and that shared region has length
exactly `O` whenever window `i` is not truncated by the end of the text
(`i*(M-O) + M ≤ L`). -/
theorem windowing_coverage_overlap_count (text : List Char) (M O : Nat)
    (hOM : O < M) :
    (text = [] → get_transcript_chunks text M O = [])
    ∧ (text ≠ [] →
        (get_transcript_chunks text M O).length = (text.length - 1) / (M - O) + 1)
    ∧ (∀ j, j < text.length → ∃ i, i < (get_transcript_chunks text M O).length ∧
        i * (M - O) ≤ j ∧
        j < i * (M - O) + ((get_transcript_chunks text M O).getD i []).length)
    ∧ (∀ i, i + 1 < (get_transcript_chunks text M O).length →
        ((get_transcript_chunks text M O).getD i []).drop (M - O)
          = ((get_transcript_chunks text M O).getD (i + 1) []).take O)
    ∧ (∀ i, i + 1 < (get_transcript_chunks text M O).length →
        i * (M - O) + M ≤ text.length →
        (((get_transcript_chunks text M O).getD i []).drop (M - O)).length = O) := by
  have hs : 0 < M - O := by omega
  refine ⟨?_, ?_, ?_, ?_, ?_⟩
  · intro h
    subst h
    rfl
  · intro hne
    rw [gtc_length text M O hOM,
      if_neg (fun h => hne (List.eq_nil_of_length_eq_zero h))]
  · intro j hj
    refine ⟨j / (M - O), ?_, ?_, ?_⟩
    · exact (gtc_index_iff text M O hOM _).mpr
        (Nat.lt_of_le_of_lt (Nat.div_mul_le_self j (M - O)) hj)
    · exact Nat.div_mul_le_self j (M - O)
    · have hidx : j / (M - O) * (M - O) < text.length :=
        Nat.lt_of_le_of_lt (Nat.div_mul_le_self j (M - O)) hj
      rw [gtc_getD text M O hOM _ hidx]
      have hlen : ((text.drop (j / (M - O) * (M - O))).take M).length
          = min M (text.length - j / (M - O) * (M - O)) := by
        simp
      rw [hlen]
      have key : j / (M - O) * (M - O) + j % (M - O) = j := by
        rw [Nat.mul_comm]
        exact Nat.div_add_mod j (M - O)
      have hm : j % (M - O) < M - O := Nat.mod_lt _ hs
      have hstep : M - O ≤ M := Nat.sub_le M O
      omega
  · intro i hi1
    have ha : i * (M - O) < text.length :=
      (gtc_index_iff text M O hOM i).mp (Nat.lt_of_succ_lt hi1)
    have hb : (i + 1) * (M - O) < text.length :=
      (gtc_index_iff text M O hOM (i + 1)).mp hi1
    rw [gtc_getD text M O hOM i ha, gtc_getD text M O hOM (i + 1) hb,
      List.drop_take, List.drop_drop, List.take_take,
      Nat.sub_sub_self (Nat.le_of_lt hOM),
      Nat.min_eq_left (Nat.le_of_lt hOM)]
    have harith : i * (M - O) + (M - O) = (i + 1) * (M - O) := by ring
    rw [harith]
  · intro i hi1 hcap
    have ha : i * (M - O) < text.length :=
      (gtc_index_iff text M O hOM i).mp (Nat.lt_of_succ_lt hi1)
    rw [gtc_getD text M O hOM i ha]
    simp only [List.length_drop, List.length_take]
    omega

/-- C1 (witness): the amended windowing properties instantiated at the
10-character text with `maxLength = 5`, `overlap = 2`. -/
theorem windowing_coverage_overlap_count_witness :
    (("abcdefghij".data : List Char) = [] →
        get_transcript_chunks "abcdefghij".data 5 2 = [])
    ∧ ("abcdefghij".data ≠ [] →
        (get_transcript_chunks "abcdefghij".data 5 2).length
          = ("abcdefghij".data.length - 1) / (5 - 2) + 1)
    ∧ (∀ j, j < "abcdefghij".data.length →
        ∃ i, i < (get_transcript_chunks "abcdefghij".data 5 2).length ∧
        i * (5 - 2) ≤ j ∧
        j < i * (5 - 2) + ((get_transcript_chunks "abcdefghij".data 5 2).getD i []).length)
    ∧ (∀ i, i + 1 < (get_transcript_chunks "abcdefghij".data 5 2).length →
        ((get_transcript_chunks "abcdefghij".data 5 2).getD i []).drop (5 - 2)
          = ((get_transcript_chunks "abcdefghij".data 5 2).getD (i + 1) []).take 2)
    ∧ (∀ i, i + 1 < (get_transcript_chunks "abcdefghij".data 5 2).length →
        i * (5 - 2) + 5 ≤ "abcdefghij".data.length →
        (((get_transcript_chunks "abcdefghij".data 5 2).getD i []).drop (5 - 2)).length
          = 2) :=
  windowing_coverage_overlap_count "abcdefghij".data 5 2 (by decide)

/-- C2 (counterexample).  The loop does not stop after emitting a window
whose end reached `len(text)`: on the 10-character text with
`maxLength = 5`, `overlap = 2`, window 2 is `"ghij"` and ends exactly at
position `2*3 + 4 = 10 = len(text)`, yet a further window `"j"` is still
emitted (the loop only stops once the advanced position reaches
`len(text)`). -/
theorem windowing_stop_condition_counterexample :
    2 * (5 - 2) + ((get_transcript_chunks "abcdefghij".data 5 2).getD 2 []).length
        = "abcdefghij".data.length
    ∧ (get_transcript_chunks "abcdefghij".data 5 2).getD 3 [] ≠ [] := by
  decide

/-- C2 (amended).  The loop starts at `pos = 0` and, while
`pos < len(text)`, emits `text[pos : min(pos+maxLength, len(text))]` and
advances `pos` by `maxLength - overlap`; it stops exactly when the
advanced position reaches `len(text)` (so a window may still be emitted
after a window whose end reached `len(text)`); empty input yields an
empty sequence.  Formally: window `i` exists iff `i*(M-O) < L`, and
window `i` is `text[i*(M-O) : i*(M-O)+M]`. -/
theorem windowing_algorithm_characterization (text : List Char) (M O : Nat)
    (hOM : O < M) :
    (text = [] → get_transcript_chunks text M O = [])
    ∧ (∀ i, i < (get_transcript_chunks text M O).length ↔ i * (M - O) < text.length)
    ∧ (∀ i, i * (M - O) < text.length →
        (get_transcript_chunks text M O).getD i []
          = (text.drop (i * (M - O))).take M) := by
  refine ⟨?_, ?_, ?_⟩
  · intro h
    subst h
    rfl
  · exact fun i => gtc_index_iff text M O hOM i
  · exact fun i hi => gtc_getD text M O hOM i hi

/-- C2 (witness): the loop characterization instantiated at a concrete
text and parameters. -/
theorem windowing_algorithm_characterization_witness :
    (("abcde".data : List Char) = [] → get_transcript_chunks "abcde".data 3 1 = [])
    ∧ (∀ i, i < (get_transcript_chunks "abcde".data 3 1).length
        ↔ i * (3 - 1) < "abcde".data.length)
    ∧ (∀ i, i * (3 - 1) < "abcde".data.length →
        (get_transcript_chunks "abcde".data 3 1).getD i []
          = ("abcde".data.drop (i * (3 - 1))).take 3) :=
  windowing_algorithm_characterization "abcde".data 3 1 (by decide)

/-- C10.  Under `0 ≤ overlap < maxLength` the windowing loop terminates
on every input (it is a total function here, with at most `len(text)`
iterations since each iteration advances the position by
`maxLength - overlap ≥ 1`): it emits at most `len(text)` windows, each
non-empty and of length at most `maxLength`. -/
theorem windowing_termination_bounds (text : List Char) (M O : Nat)
    (hOM : O < M) :
    (get_transcript_chunks text M O).length ≤ text.length
    ∧ (∀ i, i < (get_transcript_chunks text M O).length →
        (get_transcript_chunks text M O).getD i [] ≠ []
        ∧ ((get_transcript_chunks text M O).getD i []).length ≤ M) := by
  constructor
  · rw [gtc_length text M O hOM]
    by_cases h0 : text.length = 0
    · simp [h0]
    · rw [if_neg h0]
      have := Nat.div_le_self (text.length - 1) (M - O)
      omega
  · intro i hi
    have ha : i * (M - O) < text.length := (gtc_index_iff text M O hOM i).mp hi
    rw [gtc_getD text M O hOM i ha]
    constructor
    · have : ((text.drop (i * (M - O))).take M).length = min M (text.length - i * (M - O)) := by
        simp
      intro hnil
      rw [hnil] at this
      simp at this
      omega
    · simp only [List.length_take, List.length_drop]
      omega

/-- C10 (witness): the termination bounds instantiated at a concrete
text and parameters. -/
theorem windowing_termination_bounds_witness :
    (get_transcript_chunks "abcdefghij".data 4 1).length ≤ "abcdefghij".data.length
    ∧ (∀ i, i < (get_transcript_chunks "abcdefghij".data 4 1).length →
        (get_transcript_chunks "abcdefghij".data 4 1).getD i [] ≠ []
        ∧ ((get_transcript_chunks "abcdefghij".data 4 1).getD i []).length ≤ 4) :=
  windowing_termination_bounds "abcdefghij".data 4 1 (by decide)

/-! ### Validity of every value the extractors can return -/

lemma orElseO_valid {P : List Char → Prop} {a b : Option (List Char)}
    (ha : ∀ v, a = some v → P v) (hb : ∀ v, b = some v → P v) :
    ∀ v, orElseO a b = some v → P v := by
  intro v h
  cases ha0 : a with
  | some w =>
      unfold orElseO at h
      rw [ha0] at h
      injection h with hh
      subst hh
      exact ha _ ha0
  | none =>
      unfold orElseO at h
      rw [ha0] at h
      exact hb v h

lemma tryAlt_valid (alt l : List Char) :
    ∀ v, tryAlt alt l = some v → fullmatchId v = true := by
  intro v h
  unfold tryAlt at h
  split at h
  · split at h
    · next hguard =>
        cases h
        exact hguard
    · exact Option.noConfusion h
  · exact Option.noConfusion h

lemma tryAltYoutuAnyBe_valid (l : List Char) :
    ∀ v, tryAltYoutuAnyBe l = some v → fullmatchId v = true := by
  intro v h
  unfold tryAltYoutuAnyBe at h
  split at h
  · split at h
    · next hguard =>
        cases h
        exact hguard
    · exact Option.noConfusion h
  · exact Option.noConfusion h

lemma apiMarkerAt_valid (l : List Char) :
    ∀ v, apiMarkerAt l = some v → fullmatchId v = true := by
  unfold apiMarkerAt
  exact orElseO_valid (tryAlt_valid _ _) (orElseO_valid (tryAlt_valid _ _)
    (orElseO_valid (tryAlt_valid _ _) (orElseO_valid (tryAlt_valid _ _)
      (orElseO_valid (tryAlt_valid _ _) (orElseO_valid (tryAlt_valid _ _)
        (orElseO_valid (tryAlt_valid _ _) (tryAlt_valid _ _)))))))

lemma talkMarkerAt_valid (l : List Char) :
    ∀ v, talkMarkerAt l = some v → fullmatchId v = true := by
  unfold talkMarkerAt
  exact orElseO_valid (tryAlt_valid _ _) (orElseO_valid (tryAlt_valid _ _)
    (orElseO_valid (tryAlt_valid _ _) (orElseO_valid (tryAltYoutuAnyBe_valid _)
      (orElseO_valid (tryAlt_valid _ _) (orElseO_valid (tryAlt_valid _ _)
        (orElseO_valid (tryAlt_valid _ _) (tryAlt_valid _ _)))))))

lemma apiSearchMarkers_valid (l : List Char) :
    ∀ v, apiSearchMarkers l = some v → fullmatchId v = true := by
  induction l with
  | nil => intro v h; exact Option.noConfusion h
  | cons c rest ih =>
      intro v h
      unfold apiSearchMarkers at h
      split at h
      · next heq =>
          cases h
          exact apiMarkerAt_valid _ _ heq
      · exact ih v h

lemma talkSearchMarkers_valid (l : List Char) :
    ∀ v, talkSearchMarkers l = some v → fullmatchId v = true := by
  induction l with
  | nil => intro v h; exact Option.noConfusion h
  | cons c rest ih =>
      intro v h
      unfold talkSearchMarkers at h
      split at h
      · next heq =>
          cases h
          exact talkMarkerAt_valid _ _ heq
      · exact ih v h

lemma trailing11_valid (l : List Char) :
    ∀ v, trailing11 l = some v → fullmatchId v = true := by
  intro v h
  simp only [trailing11] at h
  split_ifs at h with h1 h2 h3 h4 h5 <;>
    first
      | exact Option.noConfusion h
      | (cases h
         unfold fullmatchId
         rw [Bool.and_eq_true]
         exact ⟨by simp only [List.length_drop, decide_eq_true_eq]; omega,
           by assumption⟩)

lemma apiRegexFallback_valid (url : List Char) :
    ∀ v, apiRegexFallback url = some v → fullmatchId v = true := by
  intro v h
  unfold apiRegexFallback at h
  split at h
  · next heq =>
      cases h
      exact apiSearchMarkers_valid _ _ heq
  · exact trailing11_valid _ _ h

lemma extract_youtube_video_id_valid (url : List Char) :
    ∀ v, extract_youtube_video_id url = some v → fullmatchId v = true := by
  intro v h
  simp only [extract_youtube_video_id] at h
  split_ifs at h with h1 h2
  · cases h
    exact h1
  all_goals
    split at h
    · next w heq =>
        cases h
        split at heq
        · exact Option.noConfusion heq
        · split at heq
          · split at heq
            · next hg =>
                cases heq
                exact hg
            · exact Option.noConfusion heq
          · exact Option.noConfusion heq
    · exact apiRegexFallback_valid url v h

lemma talk_extract_youtube_video_id_valid (url : List Char) :
    ∀ v, talk_extract_youtube_video_id url = some v → fullmatchId v = true := by
  intro v h
  unfold talk_extract_youtube_video_id at h
  split at h
  · next heq =>
      cases h
      exact talkSearchMarkers_valid _ _ heq
  · exact trailing11_valid _ _ h

/-! ### Idempotence on bare valid ids -/

lemma fullmatch_all (s : List Char) (h : fullmatchId s = true) :
    ∀ c ∈ s, isIdChar c = true := by
  unfold fullmatchId at h
  rw [Bool.and_eq_true] at h
  exact List.all_eq_true.mp h.2

lemma fullmatch_length (s : List Char) (h : fullmatchId s = true) :
    s.length = 11 := by
  unfold fullmatchId at h
  rw [Bool.and_eq_true, decide_eq_true_eq] at h
  exact h.1

lemma isIdChar_not_space (c : Char) (h : isIdChar c = true) :
    isPySpace c = false := by
  rw [Bool.eq_false_iff]
  intro hsp
  unfold isPySpace at hsp
  simp only [Bool.or_eq_true, decide_eq_true_eq] at hsp
  rcases hsp with ((((h1 | h1) | h1) | h1) | h1) | h1 <;>
    (subst h1; exact absurd h (by decide))

lemma pyStrip_id_of_fullmatch (s : List Char) (h : fullmatchId s = true) :
    pyStrip s = s :=
  pyStrip_eq_self_of_all s fun c hc => isIdChar_not_space c (fullmatch_all s h c hc)

lemma api_extract_idem (s : List Char) (h : fullmatchId s = true) :
    extract_youtube_video_id s = some s := by
  simp only [extract_youtube_video_id, pyStrip_id_of_fullmatch s h, h, if_true]

lemma tryAlt_none_of_bad (alt l : List Char) (c0 : Char) (hc0 : c0 ∈ alt)
    (hbad : isIdChar c0 = false) (hgood : ∀ c ∈ l, isIdChar c = true) :
    tryAlt alt l = none := by
  have hnp : ¬ (alt.isPrefixOf l = true) := by
    intro hp
    rw [List.isPrefixOf_iff_prefix] at hp
    obtain ⟨t, ht⟩ := hp
    have hm : c0 ∈ l := by
      rw [← ht]
      exact List.mem_append_left t hc0
    rw [hgood c0 hm] at hbad
    exact Bool.noConfusion hbad
  rw [tryAlt, if_neg hnp]

lemma tryAltYoutuAnyBe_none (l : List Char)
    (hgood : ∀ c ∈ l, isIdChar c = true) : tryAltYoutuAnyBe l = none := by
  rcases hres : tryAltYoutuAnyBe l with _ | v
  · rfl
  · exfalso
    unfold tryAltYoutuAnyBe at hres
    split at hres
    · exact absurd (hgood '/' (by simp)) (by decide)
    · exact Option.noConfusion hres

lemma talkMarkerAt_none (l : List Char)
    (hgood : ∀ c ∈ l, isIdChar c = true) : talkMarkerAt l = none := by
  unfold talkMarkerAt
  rw [tryAlt_none_of_bad "v=".data l '=' (by decide) (by decide) hgood,
    tryAlt_none_of_bad "/videos/".data l '/' (by decide) (by decide) hgood,
    tryAlt_none_of_bad "embed/".data l '/' (by decide) (by decide) hgood,
    tryAltYoutuAnyBe_none l hgood,
    tryAlt_none_of_bad "/v/".data l '/' (by decide) (by decide) hgood,
    tryAlt_none_of_bad "/e/".data l '/' (by decide) (by decide) hgood,
    tryAlt_none_of_bad "watch?v=".data l '=' (by decide) (by decide) hgood]
  rfl

lemma talkSearchMarkers_none (l : List Char)
    (hgood : ∀ c ∈ l, isIdChar c = true) : talkSearchMarkers l = none := by
  induction l with
  | nil => rfl
  | cons c rest ih =>
      unfold talkSearchMarkers
      rw [talkMarkerAt_none _ hgood]
      exact ih fun x hx => hgood x (List.mem_cons_of_mem c hx)

lemma trailing11_fullmatch (s : List Char) (h : fullmatchId s = true) :
    trailing11 s = some s := by
  have hall : ∀ c ∈ s, isIdChar c = true := fullmatch_all s h
  have hnl : ¬ (s.getLast? = some '\n') := by
    intro hg
    exact absurd (hall '\n' (List.mem_of_mem_getLast? hg)) (by decide)
  simp only [trailing11, if_neg hnl]
  rw [fullmatch_length s h, if_neg (by omega), Nat.sub_self, List.drop_zero,
    if_pos (List.all_eq_true.mpr hall)]

lemma talk_extract_idem (s : List Char) (h : fullmatchId s = true) :
    talk_extract_youtube_video_id s = some s := by
  unfold talk_extract_youtube_video_id
  rw [talkSearchMarkers_none s (fullmatch_all s h)]
  exact trailing11_fullmatch s h

/-- C3.  Identifier extraction round-trips across URL shapes and is
idempotent, in both the URL-parsing variant (`api/wsgi_app.py`) and the
regex-only variant (`TalkToYT-backend/app.py`, `backend/wsgi_app.py`):
the four spec inputs all yield `abc12345678`, and every valid bare
11-character identifier is mapped to itself. -/
theorem video_id_roundtrip_idempotent :
    (extract_youtube_video_id "https://www.youtube.com/watch?v=abc12345678".data
        = some "abc12345678".data
      ∧ extract_youtube_video_id "https://youtu.be/abc12345678".data
        = some "abc12345678".data
      ∧ extract_youtube_video_id "https://www.youtube.com/shorts/abc12345678".data
        = some "abc12345678".data
      ∧ extract_youtube_video_id "abc12345678".data = some "abc12345678".data)
    ∧ (talk_extract_youtube_video_id "https://www.youtube.com/watch?v=abc12345678".data
        = some "abc12345678".data
      ∧ talk_extract_youtube_video_id "https://youtu.be/abc12345678".data
        = some "abc12345678".data
      ∧ talk_extract_youtube_video_id "https://www.youtube.com/shorts/abc12345678".data
        = some "abc12345678".data
      ∧ talk_extract_youtube_video_id "abc12345678".data = some "abc12345678".data)
    ∧ (∀ s : List Char, fullmatchId s = true →
        extract_youtube_video_id s = some s
        ∧ talk_extract_youtube_video_id s = some s) := by
  refine ⟨⟨?_, ?_, ?_, ?_⟩, ⟨?_, ?_, ?_, ?_⟩, ?_⟩
  · decide
  · decide
  · decide
  · decide
  · decide
  · decide
  · decide
  · decide
  · exact fun s h => ⟨api_extract_idem s h, talk_extract_idem s h⟩

/-- C3 (witness): idempotence applied to a concrete valid identifier
containing letters of both cases, digits, underscore and hyphen. -/
theorem video_id_roundtrip_idempotent_witness :
    extract_youtube_video_id "A1b2C3d4E_-".data = some "A1b2C3d4E_-".data
    ∧ talk_extract_youtube_video_id "A1b2C3d4E_-".data = some "A1b2C3d4E_-".data :=
  video_id_roundtrip_idempotent.2.2 "A1b2C3d4E_-".data (by decide)

/-- C8.  The extractor is total: for every string input it terminates
with either `NotFound` (`none`) or a validated 11-character identifier;
there is no input on which the embedded function is undefined (the
`try/except` around the URL parse is modelled by `parseUrl` returning
`none`, after which the regex fallback runs).  The second conjunct shows
a malformed URL (an unclosed bracketed authority, on which Python's
`urlparse` raises `ValueError`) falling through to the regex fallback and
still extracting the id; the third shows a non-matching input reporting
`NotFound` rather than an error. -/
theorem extractor_total_never_raises :
    (∀ url : List Char, extract_youtube_video_id url = none
      ∨ ∃ v, extract_youtube_video_id url = some v ∧ fullmatchId v = true)
    ∧ extract_youtube_video_id "https://[bad/watch?v=abc12345678".data
        = some "abc12345678".data
    ∧ extract_youtube_video_id "not a url at all!!".data = none := by
  refine ⟨?_, by decide, by decide⟩
  intro url
  rcases hres : extract_youtube_video_id url with _ | v
  · exact Or.inl rfl
  · exact Or.inr ⟨v, rfl, extract_youtube_video_id_valid url v hres⟩

/-- C4 (counterexample).  The topic parser of `api/wsgi_app.py` (lines
354-357, same in `backend/wsgi_app.py`) strips no list markers: the raw
output `"1. Cats, 2. Dogs"` parses to `["1. Cats", "2. Dogs"]`, not
`["Cats", "Dogs"]`. -/
theorem topic_parsing_api_counterexample :
    api_extract_topics "1. Cats, 2. Dogs".data = ["1. Cats".data, "2. Dogs".data]
    ∧ ["1. Cats".data, "2. Dogs".data] ≠ ["Cats".data, "Dogs".data] := by
  decide

/-- C4 (amended).  Marker-insensitive topic parsing holds only in the
`TalkToYT-backend/app.py` variant (lines 343-347), which strips bullet
and `N.` markers before splitting: there `"1. Cats, 2. Dogs"` and
`"Cats, Dogs"` both parse to `["Cats", "Dogs"]`, and in general every
parsed topic is a non-empty, fully trimmed piece, in input order.  The
api/backend variant only removes markdown bold and trims, leaving
numbering in place. -/
theorem topic_parsing_marker_stripping :
    talk_extract_topics "1. Cats, 2. Dogs".data = ["Cats".data, "Dogs".data]
    ∧ talk_extract_topics "Cats, Dogs".data = ["Cats".data, "Dogs".data]
    ∧ (∀ raw t, t ∈ talk_extract_topics raw → t ≠ [] ∧ pyStrip t = t)
    ∧ (∀ raw t, t ∈ api_extract_topics raw → t ≠ [] ∧ pyStrip t = t) := by
  refine ⟨by decide, by decide, ?_, ?_⟩
  · intro raw t ht
    unfold talk_extract_topics at ht
    split_ifs at ht with h1
    · simp at ht
    · rw [List.mem_filterMap] at ht
      obtain ⟨piece, _, hf⟩ := ht
      split_ifs at hf with h2
      all_goals first
        | exact Option.noConfusion hf
        | (cases hf
           exact ⟨fun hnil => h2 (by rw [hnil]; rfl), pyStrip_idem piece⟩)
  · intro raw t ht
    unfold api_extract_topics at ht
    rw [List.mem_filterMap] at ht
    obtain ⟨piece, _, hf⟩ := ht
    split_ifs at hf with h2
    all_goals first
      | exact Option.noConfusion hf
      | (cases hf
         exact ⟨fun hnil => h2 (by rw [hnil]; rfl), pyStrip_idem piece⟩)

/-- C4 (witness): the trimming/non-emptiness guarantee applied to a
concrete parsed topic. -/
theorem topic_parsing_marker_stripping_witness :
    ("a".data : List Char) ≠ [] ∧ pyStrip "a".data = "a".data :=
  topic_parsing_marker_stripping.2.2.1 " a ,  b".data "a".data (by decide)

lemma talk_chat_all_disqualified (results : List (Option (List Char)))
    (h : ∀ r ∈ results, disqualifiedTalk r = true) :
    talk_chat_with_video results = talkChatFallback := by
  induction results with
  | nil => rfl
  | cons r rest ih =>
      unfold talk_chat_with_video
      rw [if_pos (h r (List.mem_cons_self r rest))]
      exact ih fun x hx => h x (List.mem_cons_of_mem r hx)

/-- C5 (counterexample).  In the `backend/wsgi_app.py` chat variant
(lines 175-188), a single-window generation result of `"**"` has empty
cleaned text — disqualifying under the claim — yet the response returned
is the empty string, not the fixed fallback. -/
theorem chat_fallback_backend_counterexample :
    clean_ai_response "**".data = []
    ∧ backend_chat_with_video (some "**".data) = []
    ∧ apologyFallback ≠ [] := by
  decide

/-- C5 (amended).  The claimed fallback behaviour holds in the
chunk-iterating chat of `TalkToYT-backend/app.py` (lines 215-242): when
every attempted window's generation result is blocked, empty, or
contains a disqualifying phrase (case-insensitive), the response is the
fixed fallback string, which is non-empty.  In the single-call
`api/wsgi_app.py` variant an empty-cleaning result likewise yields the
non-empty apology fallback; the `backend/wsgi_app.py` variant can
instead return an empty string (see the counterexample), and neither
single-call variant checks for disqualifying phrases. -/
theorem chat_fallback_disqualified (results : List (Option (List Char)))
    (h : ∀ r ∈ results, disqualifiedTalk r = true) :
    (talk_chat_with_video results = talkChatFallback ∧ talkChatFallback ≠ [])
    ∧ (∀ raw : List Char, clean_ai_response raw = [] →
        api_chat_with_video raw = apologyFallback ∧ apologyFallback ≠ []) := by
  refine ⟨⟨talk_chat_all_disqualified results h, by decide⟩, ?_⟩
  intro raw hr
  refine ⟨?_, by decide⟩
  unfold api_chat_with_video
  rw [hr]
  rfl

/-- C5 (witness): the fallback guarantee applied to a concrete list of
disqualified window results (blocked, markers only, and a
"not available" phrasing in mixed case). -/
theorem chat_fallback_disqualified_witness :
    (talk_chat_with_video
        [none, some [], some "The info is NOT AVAILABLE here.".data]
          = talkChatFallback
      ∧ talkChatFallback ≠ [])
    ∧ (∀ raw : List Char, clean_ai_response raw = [] →
        api_chat_with_video raw = apologyFallback ∧ apologyFallback ≠ []) :=
  chat_fallback_disqualified
    [none, some [], some "The info is NOT AVAILABLE here.".data] (by decide)

/-- C7 (counterexample).  An empty transcript does not reach the
"nothing to summarize" branch: the endpoint's missing-field check fires
first and returns a 400 error, because Python's `if not video_transcript`
conflates a missing field with an empty string. -/
theorem summarize_empty_transcript_counterexample :
    backend_summarize_video (fun _ => []) []
        = (400, "Video transcript is required".data)
    ∧ ((400 : Nat), "Video transcript is required".data)
        ≠ ((200 : Nat), "There is no content to summarize.".data) := by
  refine ⟨rfl, by decide⟩

/-- C7 (amended).  An empty transcript is rejected with the 400
missing-field error before windowing; the "There is no content to
summarize." success branch in the code is unreachable for string inputs,
because every non-empty transcript produces at least one window and the
request then always succeeds with the pipeline's summary. -/
theorem summarize_empty_transcript_rejected :
    (∀ gen, backend_summarize_video gen []
        = (400, "Video transcript is required".data))
    ∧ (∀ gen (vt : List Char), vt ≠ [] →
        backend_summarize_video gen vt
          = (200, (backend_summarize_core gen
              (get_transcript_chunks vt 12000 500)).1)) := by
  constructor
  · intro gen
    rfl
  · intro gen vt hne
    have hchunks : ¬ ((get_transcript_chunks vt 12000 500).isEmpty = true) := by
      rw [List.isEmpty_iff]
      intro hnil
      have hlen := gtc_length vt 12000 500 (by omega)
      rw [hnil] at hlen
      have hvl : vt.length ≠ 0 := fun h0 => hne (List.eq_nil_of_length_eq_zero h0)
      rw [if_neg hvl] at hlen
      simp at hlen
    have hvE : ¬ (vt.isEmpty = true) := by
      rw [List.isEmpty_iff]
      exact hne
    unfold backend_summarize_video
    rw [if_neg hvE, if_neg hchunks]

/-- C7 (witness): the success path applied to a concrete one-character
transcript and a generation stub. -/
theorem summarize_empty_transcript_rejected_witness :
    backend_summarize_video (fun _ => []) "x".data
      = (200, (backend_summarize_core (fun _ => [])
          (get_transcript_chunks "x".data 12000 500)).1) :=
  summarize_empty_transcript_rejected.2 (fun _ => []) "x".data (by decide)

lemma scenario_chunks_length :
    (get_transcript_chunks scenarioTranscript 12000 500).length = 2 := by
  have hT : scenarioTranscript.length = 13000 := by
    unfold scenarioTranscript
    rw [length_repeatList]
    norm_num [show "Hello world. ".data.length = 13 from by decide]
  rw [gtc_length scenarioTranscript 12000 500 (by omega), hT]
  norm_num

lemma filter_all_nonempty (gen : List Char → List Char)
    (hg : ∀ p, (gen p).isEmpty = false) (chunks : List (List Char)) :
    ((chunks.map fun c => gen (backend_chunk_prompt c)).filter
        fun s => !s.isEmpty)
      = chunks.map fun c => gen (backend_chunk_prompt c) := by
  rw [List.filter_eq_self]
  intro a ha
  rw [List.mem_map] at ha
  obtain ⟨c, _, rfl⟩ := ha
  rw [hg]
  rfl

/-- C6 (counterexample).  The `TalkToYT-backend/app.py` summarize
variant (lines 275-299, one of the claim's cited implementations) makes
no synthesis call when more than one summary results: with two windows
and a generation stub answering `"A"` to every prompt, exactly the two
per-window prompts are sent and the final summary is the space-join
`"A A"` of the per-window summaries — not the output `"A"` of any
synthesis generation call. -/
theorem summarize_talk_no_synthesis_counterexample :
    (talk_summarize_core (fun _ => some ['A']) [['a'], ['b']]).1 = "A A".data
    ∧ (talk_summarize_core (fun _ => some ['A']) [['a'], ['b']]).2.length = 2
    ∧ "A A".data ≠ ['A'] := by
  decide

/-- C6 (amended).  The claimed two-step orchestration holds in the
`backend/wsgi_app.py` / `api/wsgi_app.py` variants: one generation call
per window, windows whose generation yields no text are skipped, at most
one summary means no synthesis call (the single summary, cleaned, is
used directly), and on the spec scenario (`"Hello world. " * 1000`,
longer than `maxLength = 12000`) any always-productive generation stub
produces two windows, more than one intermediate summary, and exactly
one synthesis call (three generation calls in total).  The
`TalkToYT-backend` variant instead joins the per-window summaries with
spaces and never makes a synthesis call. -/
theorem summarize_two_step_orchestration (gen : List Char → List Char)
    (hg : ∀ p, (gen p).isEmpty = false) :
    (get_transcript_chunks scenarioTranscript 12000 500).length = 2
    ∧ 1 < (((get_transcript_chunks scenarioTranscript 12000 500).map
        fun c => gen (backend_chunk_prompt c)).filter fun s => !s.isEmpty).length
    ∧ (backend_summarize_core gen
        (get_transcript_chunks scenarioTranscript 12000 500)).2.length
        = (get_transcript_chunks scenarioTranscript 12000 500).length + 1
    ∧ (∀ gen2 (chunks2 : List (List Char)),
        (((chunks2.map fun c => gen2 (backend_chunk_prompt c)).filter
            fun s => !s.isEmpty).length ≤ 1) →
        (backend_summarize_core gen2 chunks2).2
          = chunks2.map backend_chunk_prompt) := by
  have hfil := filter_all_nonempty gen hg
    (get_transcript_chunks scenarioTranscript 12000 500)
  have hgt : 1 < (((get_transcript_chunks scenarioTranscript 12000 500).map
      fun c => gen (backend_chunk_prompt c)).filter fun s => !s.isEmpty).length := by
    rw [hfil, List.length_map, scenario_chunks_length]
    omega
  refine ⟨scenario_chunks_length, hgt, ?_, ?_⟩
  · simp only [backend_summarize_core]
    rw [if_pos hgt]
    simp
  · intro gen2 chunks2 hle
    simp only [backend_summarize_core]
    rw [if_neg (show ¬ (1 < (((chunks2.map fun c => gen2 (backend_chunk_prompt c)).filter
      fun s => !s.isEmpty)).length) by omega)]
    simp

/-- C6 (witness): the two-step orchestration applied to a concrete
always-productive generation stub (constant answer `"A"`). -/
theorem summarize_two_step_orchestration_witness :
    (get_transcript_chunks scenarioTranscript 12000 500).length = 2
    ∧ 1 < (((get_transcript_chunks scenarioTranscript 12000 500).map
        fun c => (fun _ => ['A']) (backend_chunk_prompt c)).filter
          fun s => !s.isEmpty).length
    ∧ (backend_summarize_core (fun _ => ['A'])
        (get_transcript_chunks scenarioTranscript 12000 500)).2.length
        = (get_transcript_chunks scenarioTranscript 12000 500).length + 1
    ∧ (∀ gen2 (chunks2 : List (List Char)),
        (((chunks2.map fun c => gen2 (backend_chunk_prompt c)).filter
            fun s => !s.isEmpty).length ≤ 1) →
        (backend_summarize_core gen2 chunks2).2
          = chunks2.map backend_chunk_prompt) :=
  summarize_two_step_orchestration (fun _ => ['A']) (fun _ => rfl)

lemma natDigitsAux_small (f d : Nat) (hd : d < 10) :
    natDigitsAux (f + 1) d = [digitChar d] := by
  unfold natDigitsAux
  rw [if_pos hd]

lemma natDigits_len_one (n : Nat) (h : n < 10) : (natDigits n).length = 1 := by
  unfold natDigits
  rw [natDigitsAux_small _ _ h]
  rfl

lemma natDigits_len_two (n : Nat) (h1 : 10 ≤ n) (h2 : n < 100) :
    (natDigits n).length = 2 := by
  unfold natDigits
  obtain ⟨k, rfl⟩ : ∃ k, n = k + 1 := ⟨n - 1, by omega⟩
  rw [show k + 1 + 1 = (k + 1) + 1 from rfl, natDigitsAux, if_neg (by omega),
    natDigitsAux_small k _ (by omega)]
  rfl

lemma natDigitsAux_len_pos (f d : Nat) (hf : 0 < f) :
    0 < (natDigitsAux f d).length := by
  obtain ⟨g, rfl⟩ : ∃ g, f = g + 1 := ⟨f - 1, by omega⟩
  rw [natDigitsAux]
  split <;> simp

lemma pad02_len_two (i : ℤ) (h0 : 0 ≤ i) (h60 : i < 60) :
    (pad02 i).length = 2 := by
  unfold pad02
  rw [if_neg (by omega)]
  by_cases h10 : i < 10
  · rw [if_pos h10, List.length_cons, natDigits_len_one i.toNat (by omega)]
  · rw [if_neg h10]
    exact natDigits_len_two i.toNat (by omega) (by omega)

lemma pad02_len_ge_two (i : ℤ) (h0 : 0 ≤ i) : 2 ≤ (pad02 i).length := by
  unfold pad02
  rw [if_neg (by omega)]
  by_cases h10 : i < 10
  · rw [if_pos h10, List.length_cons, natDigits_len_one i.toNat (by omega)]
  · rw [if_neg h10]
    unfold natDigits
    obtain ⟨k, hk⟩ : ∃ k, i.toNat = k + 1 := ⟨i.toNat - 1, by omega⟩
    rw [hk, show k + 1 + 1 = (k + 1) + 1 from rfl, natDigitsAux,
      if_neg (by omega), List.length_append]
    have hpos := natDigitsAux_len_pos (k + 1) ((k + 1) / 10) (by omega)
    simp only [List.length_cons, List.length_nil]
    omega

lemma pyMod_nonneg (x m : ℚ) (hm : 0 < m) : 0 ≤ pyMod x m := by
  unfold pyMod
  have h1 : ((⌊x / m⌋ : ℤ) : ℚ) ≤ x / m := Int.floor_le _
  have h2 : m * ((⌊x / m⌋ : ℤ) : ℚ) ≤ m * (x / m) :=
    mul_le_mul_of_nonneg_left h1 (le_of_lt hm)
  rw [mul_comm m (x / m), div_mul_cancel₀ x (ne_of_gt hm)] at h2
  linarith

lemma pyMod_lt (x m : ℚ) (hm : 0 < m) : pyMod x m < m := by
  unfold pyMod
  have h1 : x / m < ((⌊x / m⌋ : ℤ) : ℚ) + 1 := Int.lt_floor_add_one _
  have h2 : m * (x / m) < m * (((⌊x / m⌋ : ℤ) : ℚ) + 1) :=
    mul_lt_mul_of_pos_left h1 hm
  rw [mul_comm m (x / m), div_mul_cancel₀ x (ne_of_gt hm)] at h2
  nlinarith

/-- C9 (counterexample).  At 360000 seconds (100 hours) the hours field
is three digits: `format_timestamp(360000)` is `"[100:00:00]"`, which is
longer than any `[HH:MM:SS]` string with two-digit fields, so the
claimed "zero-padded two-digit" hours field fails. -/
theorem timestamp_three_digit_hours_counterexample :
    format_timestamp (some 360000) = "[100:00:00]".data
    ∧ (format_timestamp (some 360000)).length ≠ "[00:00:00]".data.length := by
  have h1 : ⌊(360000 : ℚ) / 3600⌋ = 100 := by norm_num
  have h4 : ⌊(360000 : ℚ) / 60⌋ = 6000 := by norm_num
  have h2 : pyMod 360000 3600 = 0 := by
    unfold pyMod
    rw [h1]
    norm_num
  have h5 : pyMod 360000 60 = 0 := by
    unfold pyMod
    rw [h4]
    norm_num
  have hmain : format_timestamp (some 360000) = "[100:00:00]".data := by
    unfold format_timestamp
    simp only [Option.getD_some]
    rw [h1, h2, h5]
    norm_num
    decide
  exact ⟨hmain, by rw [hmain]; decide⟩

/-- C9 (amended).  `format_timestamp` coerces its input to a number
(`0` on invalid input; floats are modelled as exact rationals) and, for
every non-negative value `q`, renders `'[' HH ':' MM ':' SS ']'` where
the three fields are the floor-division decomposition of `⌊q⌋` into
hours, minutes and seconds (`3600*H + 60*M + S = ⌊q⌋` with
`0 ≤ M, S < 60`); minutes and seconds are always exactly two digits,
while the hours field is zero-padded to a *minimum* of two digits and
grows beyond two digits from 100 hours on (see the counterexample). -/
theorem timestamp_format_floor (q : ℚ) (hq : 0 ≤ q) :
    format_timestamp none = format_timestamp (some 0)
    ∧ ∃ H Mi S : ℤ,
        format_timestamp (some q)
          = '[' :: (pad02 H ++ ':' :: (pad02 Mi ++ ':' :: (pad02 S ++ [']'])))
        ∧ 0 ≤ H ∧ 0 ≤ Mi ∧ Mi < 60 ∧ 0 ≤ S ∧ S < 60
        ∧ 3600 * H + 60 * Mi + S = ⌊q⌋
        ∧ (pad02 Mi).length = 2 ∧ (pad02 S).length = 2
        ∧ 2 ≤ (pad02 H).length := by
  refine ⟨rfl, ⌊q / 3600⌋, ⌊pyMod q 3600 / 60⌋, ⌊pyMod q 60⌋, rfl, ?_⟩
  have hH : 0 ≤ ⌊q / 3600⌋ := Int.floor_nonneg.mpr (by positivity)
  have hr0 : 0 ≤ pyMod q 3600 := pyMod_nonneg q 3600 (by norm_num)
  have hrlt : pyMod q 3600 < 3600 := pyMod_lt q 3600 (by norm_num)
  have hMi0 : 0 ≤ ⌊pyMod q 3600 / 60⌋ :=
    Int.floor_nonneg.mpr (by positivity)
  have hMi60 : ⌊pyMod q 3600 / 60⌋ < 60 := by
    rw [Int.floor_lt]
    push_cast
    rw [div_lt_iff₀ (by norm_num : (0:ℚ) < 60)]
    linarith
  have hS0 : 0 ≤ ⌊pyMod q 60⌋ :=
    Int.floor_nonneg.mpr (pyMod_nonneg q 60 (by norm_num))
  have hS60 : ⌊pyMod q 60⌋ < 60 := by
    rw [Int.floor_lt]
    push_cast
    exact pyMod_lt q 60 (by norm_num)
  have f1 : ⌊pyMod q 3600⌋ = ⌊q⌋ - 3600 * ⌊q / 3600⌋ := by
    have e1 : pyMod q 3600 = q - ((3600 * ⌊q / 3600⌋ : ℤ) : ℚ) := by
      unfold pyMod
      push_cast
      ring
    rw [e1, Int.floor_sub_int]
  have e2 : pyMod (pyMod q 3600) 60 = pyMod q 60 := by
    unfold pyMod
    have hdiv : (q - 3600 * ((⌊q / 3600⌋ : ℤ) : ℚ)) / 60
        = q / 60 - ((60 * ⌊q / 3600⌋ : ℤ) : ℚ) := by
      push_cast
      ring
    rw [hdiv, Int.floor_sub_int]
    push_cast
    ring
  have f2 : ⌊pyMod q 3600⌋
      = 60 * ⌊pyMod q 3600 / 60⌋ + ⌊pyMod q 60⌋ := by
    have h3 : pyMod (pyMod q 3600) 60
        = pyMod q 3600 - ((60 * ⌊pyMod q 3600 / 60⌋ : ℤ) : ℚ) := by
      unfold pyMod
      push_cast
      ring
    have h4 : ⌊pyMod (pyMod q 3600) 60⌋
        = ⌊pyMod q 3600⌋ - 60 * ⌊pyMod q 3600 / 60⌋ := by
      rw [h3, Int.floor_sub_int]
    rw [e2] at h4
    omega
  refine ⟨hH, hMi0, hMi60, hS0, hS60, by omega,
    pad02_len_two _ hMi0 hMi60, pad02_len_two _ hS0 hS60,
    pad02_len_ge_two _ hH⟩

/-- C9 (witness): the format decomposition applied at 3725 seconds
(one hour, two minutes, five seconds). -/
theorem timestamp_format_floor_witness :
    format_timestamp none = format_timestamp (some 0)
    ∧ ∃ H Mi S : ℤ,
        format_timestamp (some 3725)
          = '[' :: (pad02 H ++ ':' :: (pad02 Mi ++ ':' :: (pad02 S ++ [']'])))
        ∧ 0 ≤ H ∧ 0 ≤ Mi ∧ Mi < 60 ∧ 0 ≤ S ∧ S < 60
        ∧ 3600 * H + 60 * Mi + S = ⌊(3725 : ℚ)⌋
        ∧ (pad02 Mi).length = 2 ∧ (pad02 S).length = 2
        ∧ 2 ≤ (pad02 H).length :=
  timestamp_format_floor 3725 (by norm_num)
